import Mathlib

/-!
Verification development for the unciv battle-resolution engine
(`battle_damage.py`, `battle.py`, `city_combatant.py`, `battle_unit_capture.py`,
`nuke.py`).  Python floats are embedded as rationals, Python ints as `Int`, and
the mutable game state is passed explicitly.  Randomness is embedded as
explicit streams (`Nat → ℚ`) or seed functions (`Int → ℚ`).
-/

namespace UncivBattle

/-- Python `int(x)` conversion: truncation toward zero. -/
def pyInt (q : ℚ) : ℤ :=
  if q < 0 then -(Rat.floor (-q)) else Rat.floor q

/-- Embeds `BattleDamage.damage_modifier` (battle_damage.py, lines 356-369):
`stronger_to_weaker_ratio = pow(r, -1 if r < 1 else 1)`,
`ratio_modifier = (pow((s + 3) / 4, 4) + 1) / 2`, inverted when
`(damage_to_attacker and r > 1) or (not damage_to_attacker and r < 1)`,
then multiplied by `24 + 12 * randomness_factor`. -/
def damage_modifier (attacker_to_defender_r : ℚ) (damage_to_attacker : Bool)
    (randomness_factor : ℚ) : ℚ :=
  let stronger_to_weaker := if attacker_to_defender_r < 1
    then attacker_to_defender_r⁻¹ else attacker_to_defender_r
  let ratio_modifier := (((stronger_to_weaker + 3) / 4) ^ 4 + 1) / 2
  let ratio_modifier' :=
    if (damage_to_attacker = true ∧ attacker_to_defender_r > 1) ∨
       (damage_to_attacker = false ∧ attacker_to_defender_r < 1)
    then ratio_modifier⁻¹ else ratio_modifier
  let random_centered_around_30 := 24 + 12 * randomness_factor
  random_centered_around_30 * ratio_modifier'

/-- The formula stated by the specification for the damage modifier:
`s = r` if `r ≥ 1` else `1/r`, `m0 = (((s+3)/4)^4 + 1) / 2`, `m = 1/m0` when
`(damageToAttacker and r > 1) or (not damageToAttacker and r < 1)` else `m0`,
result `(24 + 12*f) * m`.  Written from the spec, for comparison with
`damage_modifier` (which is written from the source). -/
def damage_modifier_from_spec (r : ℚ) (damage_to_attacker : Bool) (f : ℚ) : ℚ :=
  let s := if r ≥ 1 then r else 1 / r
  let m0 := (((s + 3) / 4) ^ 4 + 1) / 2
  let m := if (damage_to_attacker = true ∧ r > 1) ∨
              (damage_to_attacker = false ∧ r < 1)
           then 1 / m0 else m0
  (24 + 12 * f) * m

/-- C1: for every strength ratio `r > 0` and randomness factor `f`,
`BattleDamage.damage_modifier(r, damageToAttacker, f)` equals the spec formula
`(24 + 12*f) * m`; and for `f ∈ [0, 1)` the random factor `24 + 12*f` lies in
`[24, 36)`. -/
theorem c1_damage_modifier_matches_spec
    (r : ℚ) (damage_to_attacker : Bool) (f : ℚ) (hr : 0 < r) :
    damage_modifier r damage_to_attacker f =
      damage_modifier_from_spec r damage_to_attacker f ∧
    (0 ≤ f → f < 1 →
      24 ≤ 24 + 12 * f ∧ 24 + 12 * f < 36) := by
  constructor
  · unfold damage_modifier damage_modifier_from_spec
    by_cases h1 : r < 1
    · rw [if_pos h1, if_neg (not_le.mpr h1)]
      simp only [inv_eq_one_div]
    · rw [if_neg h1, if_pos (not_lt.mp h1)]
      simp only [inv_eq_one_div]
  · intro h0 h1
    constructor
    · linarith
    · linarith

/-- Witness for C1 at `r = 2`, `f = 1/2`. -/
theorem c1_witness :
    damage_modifier 2 true (1/2) = damage_modifier_from_spec 2 true (1/2) ∧
    (0 ≤ (1:ℚ)/2 → (1:ℚ)/2 < 1 →
      24 ≤ 24 + 12 * ((1:ℚ)/2) ∧ 24 + 12 * ((1:ℚ)/2) < 36) :=
  c1_damage_modifier_matches_spec 2 true (1/2) (by norm_num)

/-- Data of a `CityCombatant` (city_combatant.py).  `strengthAttack` and
`strengthDefend` abstract the two results of `get_city_strength` (which reads
ruleset constants, terrain uniques, tech counts and garrison data external to
the battle core); the claims quantify over all their values. -/
structure CityData where
  health : Int
  strengthAttack : Int
  strengthDefend : Int
  civGold : Int
  civIsBarbarian : Bool

/-- Data of a `MapUnitCombatant` (map_unit_combatant.py) together with the
unique-lookup results the battle functions read from the unit and its civ. -/
structure UnitData where
  health : Int
  baseStrength : Int
  rangedStrength : Int
  isRangedUnit : Bool
  isAirUnitFlag : Bool
  isCivilianUnit : Bool
  isEmbarked : Bool
  embarkDefense : Int
  noDamagePenaltyWounded : Bool
  civIsBarbarian : Bool
  cannotCaptureCities : Bool
  uncapturable : Bool
  matchesFilters : List String
  gainFromDefeatingUniques : List (String × Int)
  gainFromEncampmentUniques : List Int
  killUnitCaptureFilters : List String

/-- The `ICombatant` tagged union: a combatant is a city or a map unit. -/
inductive Combatant where
  | city (c : CityData)
  | unit (u : UnitData)

/-- `CityCombatant.take_damage` (city_combatant.py, lines 55-58):
`health -= damage; if health < 1: health = 1`. -/
def city_take_damage (health : Int) (damage : Int) : Int :=
  let h := health - damage
  if h < 1 then 1 else h

/-- Modelled from the spec: `MapUnit.take_damage` (mapunit.py is not under
src/); per spec §3 units at health ≤ 0 are "defeated", so unit health is
reduced and floored at 0. -/
def unit_take_damage (health : Int) (damage : Int) : Int :=
  max 0 (health - damage)

def Combatant.take_damage : Combatant → Int → Combatant
  | .city c, d => .city { c with health := city_take_damage c.health d }
  | .unit u, d => .unit { u with health := unit_take_damage u.health d }

/-- `ICombatant.is_ranged` (i_combatant.py): cities are ranged, units per
`base_unit.is_ranged()`. -/
def Combatant.is_ranged : Combatant → Bool
  | .city _ => true
  | .unit u => u.isRangedUnit

def Combatant.is_melee (c : Combatant) : Bool := !c.is_ranged

def Combatant.is_air_unit : Combatant → Bool
  | .city _ => false
  | .unit u => u.isAirUnitFlag

def Combatant.is_civilian : Combatant → Bool
  | .city _ => false
  | .unit u => u.isCivilianUnit

def Combatant.is_city : Combatant → Bool
  | .city _ => true
  | .unit _ => false

def Combatant.get_health : Combatant → Int
  | .city c => c.health
  | .unit u => u.health

/-- `CityCombatant.is_defeated`: `city.health == 1`;
`MapUnitCombatant.is_defeated`: `unit.health <= 0`. -/
def Combatant.is_defeated : Combatant → Bool
  | .city c => c.health = 1
  | .unit u => u.health ≤ 0

/-- `MapUnitCombatant.get_attacking_strength`: ranged strength if the unit is
ranged, else base strength. -/
def unit_attacking_strength (u : UnitData) : Int :=
  if u.isRangedUnit then u.rangedStrength else u.baseStrength

/-- `MapUnitCombatant.get_defending_strength(attacked_by_ranged)`:
embarked non-civilian units use the era's embarked defense; ranged units
attacked by ranged use ranged strength; otherwise base strength. -/
def unit_defending_strength (u : UnitData) (attacked_by_ranged : Bool) : Int :=
  if u.isEmbarked ∧ ¬u.isCivilianUnit then u.embarkDefense
  else if u.isRangedUnit ∧ attacked_by_ranged then u.rangedStrength
  else u.baseStrength

/-- `ICombatant.get_attacking_strength`; the city variant is
`int(get_city_strength(Attack) * 0.75)` (city_combatant.py line 64). -/
def Combatant.get_attacking_strength : Combatant → Int
  | .city c => pyInt ((c.strengthAttack : ℚ) * (3/4))
  | .unit u => unit_attacking_strength u

/-- `ICombatant.get_defending_strength`; the city variant returns 1 when the
city is already defeated (health == 1). -/
def Combatant.get_defending_strength (c : Combatant) (attacked_by_ranged : Bool) : Int :=
  match c with
  | .city cd => if cd.health = 1 then 1 else cd.strengthDefend
  | .unit u => unit_defending_strength u attacked_by_ranged

/-- Modelled from the spec: the numeric constants of
`battle_constants.py` (not under src/).  The spec gives
`randomFactor = 24 + 12 × uniform(0,1)`, a fixed civilian damage constant, a
wounded-damage-reduction constant; their values are abstract fields. -/
structure BattleConstants where
  DAMAGE_TO_CIVILIAN_UNIT : Int
  DAMAGE_REDUCTION_WOUNDED_UNIT_PERCENTAGE : ℚ

/-- `BattleDamage.modifiers_to_final_bonus`: `1 + Σ value/100` over the
modifier counter. -/
def modifiers_to_final_bonus (modifiers : List (String × Int)) : ℚ :=
  modifiers.foldl (fun acc m => acc + (m.2 : ℚ) / 100) 1

/-- `BattleDamage.get_attacking_strength`: `max(1, base * attack_modifier)`.
The modifier counter (built by `get_attack_modifiers` from uniques, terrain
and flanking data) is passed in; the claims quantify over all counters. -/
def bd_get_attacking_strength (attacker : Combatant)
    (attack_modifiers : List (String × Int)) : ℚ :=
  max 1 ((attacker.get_attacking_strength : ℚ) *
    modifiers_to_final_bonus attack_modifiers)

/-- `BattleDamage.get_defending_strength`: `max(1, base * defence_modifier)`,
where the base uses `defender.get_defending_strength(attacker.is_ranged())`. -/
def bd_get_defending_strength (attacker defender : Combatant)
    (defence_modifiers : List (String × Int)) : ℚ :=
  max 1 ((defender.get_defending_strength attacker.is_ranged : ℚ) *
    modifiers_to_final_bonus defence_modifiers)

/-- `BattleDamage.get_health_dependant_damage_ratio` (battle_damage.py,
lines 282-288): 1 for cities or units with the no-wounded-penalty unique, else
`1 - (100 - health) / DAMAGE_REDUCTION_WOUNDED_UNIT_RATIO_PERCENTAGE`. -/
def health_dependant_damage_factor (bc : BattleConstants) :
    Combatant → ℚ
  | .city _ => 1
  | .unit u =>
    if u.noDamagePenaltyWounded then 1
    else 1 - (100 - (u.health : ℚ)) / bc.DAMAGE_REDUCTION_WOUNDED_UNIT_PERCENTAGE

/-- `BattleDamage.calculate_damage_to_attacker` (battle_damage.py,
lines 310-332): 0 for ranged non-air attackers, 0 for civilian defenders,
else `int(damage_modifier(ratio, True, f) * health_factor(defender))`. -/
def calculate_damage_to_attacker (attacker defender : Combatant)
    (attack_modifiers defence_modifiers : List (String × Int))
    (bc : BattleConstants) (randomness_factor : ℚ) : Int :=
  if attacker.is_ranged ∧ ¬attacker.is_air_unit then 0
  else if defender.is_civilian then 0
  else
    let r := bd_get_attacking_strength attacker attack_modifiers /
      bd_get_defending_strength attacker defender defence_modifiers
    pyInt (damage_modifier r true randomness_factor *
      health_dependant_damage_factor bc defender)

/-- `BattleDamage.calculate_damage_to_defender` (battle_damage.py,
lines 334-354): the fixed civilian constant for civilian defenders, else
`int(damage_modifier(ratio, False, f) * health_factor(attacker))`. -/
def calculate_damage_to_defender (attacker defender : Combatant)
    (attack_modifiers defence_modifiers : List (String × Int))
    (bc : BattleConstants) (randomness_factor : ℚ) : Int :=
  if defender.is_civilian then bc.DAMAGE_TO_CIVILIAN_UNIT
  else
    let r := bd_get_attacking_strength attacker attack_modifiers /
      bd_get_defending_strength attacker defender defence_modifiers
    pyInt (damage_modifier r false randomness_factor *
      health_dependant_damage_factor bc attacker)

/-- C3: every ranged, non-air attacker receives zero counter-damage from
`calculate_damage_to_attacker`, for every defender, every modifier
environment (standing in for the tile), and every randomness factor. -/
theorem c3_ranged_attacker_takes_no_damage
    (attacker defender : Combatant)
    (attack_modifiers defence_modifiers : List (String × Int))
    (bc : BattleConstants) (randomness_factor : ℚ)
    (hr : attacker.is_ranged = true) (ha : attacker.is_air_unit = false) :
    calculate_damage_to_attacker attacker defender attack_modifiers
      defence_modifiers bc randomness_factor = 0 := by
  unfold calculate_damage_to_attacker
  rw [if_pos]
  exact ⟨hr, by simp [ha]⟩

/-- Witness for C3: a concrete ranged land unit attacking a concrete melee
unit deals itself zero damage. -/
theorem c3_witness :
    calculate_damage_to_attacker
      (.unit { health := 100, baseStrength := 10, rangedStrength := 14,
               isRangedUnit := true, isAirUnitFlag := false,
               isCivilianUnit := false, isEmbarked := false,
               embarkDefense := 5, noDamagePenaltyWounded := false,
               civIsBarbarian := false, cannotCaptureCities := false,
               uncapturable := false, matchesFilters := [],
               gainFromDefeatingUniques := [], gainFromEncampmentUniques := [],
               killUnitCaptureFilters := [] })
      (.unit { health := 80, baseStrength := 8, rangedStrength := 0,
               isRangedUnit := false, isAirUnitFlag := false,
               isCivilianUnit := false, isEmbarked := false,
               embarkDefense := 5, noDamagePenaltyWounded := false,
               civIsBarbarian := false, cannotCaptureCities := false,
               uncapturable := false, matchesFilters := [],
               gainFromDefeatingUniques := [], gainFromEncampmentUniques := [],
               killUnitCaptureFilters := [] })
      [("Flanking", 10)] [("Tile", -20)]
      { DAMAGE_TO_CIVILIAN_UNIT := 40,
        DAMAGE_REDUCTION_WOUNDED_UNIT_PERCENTAGE := 300 }
      (1/3) = 0 :=
  c3_ranged_attacker_takes_no_damage _ _ _ _ _ _ rfl rfl

/-- C4, single-call form: `CityCombatant.take_damage` leaves
`health' = max(1, health - damage)`. -/
theorem city_take_damage_eq_max (h d : Int) :
    city_take_damage h d = max 1 (h - d) := by
  unfold city_take_damage
  by_cases hc : h - d < 1
  · rw [if_pos hc, max_eq_left (le_of_lt hc)]
  · rw [if_neg hc, max_eq_right (not_lt.mp hc)]

/-- C4: for every city combatant and every sequence of `take_damage` calls
with arbitrary integer amounts, health never drops below 1 after any call,
and each call leaves `health' = max(1, health - damage)`. -/
theorem c4_city_min_health
    (h : Int) (ds : List Int) (hne : ds ≠ []) :
    1 ≤ List.foldl city_take_damage h ds ∧
    ∀ h' d, city_take_damage h' d = max 1 (h' - d) := by
  refine ⟨?_, fun h' d => city_take_damage_eq_max h' d⟩
  induction ds generalizing h with
  | nil => exact absurd rfl hne
  | cons d rest ih =>
    cases rest with
    | nil =>
      simp only [List.foldl, city_take_damage_eq_max]
      exact le_max_left _ _
    | cons d2 rest2 =>
      simp only [List.foldl]
      exact ih (city_take_damage h d) (by simp)

/-- Witness for C4: a city at 10 health hit for 50, then 3, then healed 4,
ends at health ≥ 1. -/
theorem c4_witness :
    1 ≤ List.foldl city_take_damage 10 [50, 3, -4] ∧
    ∀ h' d, city_take_damage h' d = max 1 (h' - d) :=
  c4_city_min_health 10 [50, 3, -4] (by simp)

/-- State of the alternating HP-exchange loop in `Battle.take_damage`
(battle.py, lines 451-461): remaining potential damage to each side, the two
combatants, and the number of iterations performed (also the index into the
global random stream). -/
structure ExchangeState where
  pd : Int
  pa : Int
  defender : Combatant
  attacker : Combatant
  iters : Nat

/-- One defender-hit iteration: `potential_damage_to_defender -= 1;
defender.take_damage(1)`. -/
def def_hit (s : ExchangeState) : ExchangeState :=
  ⟨s.pd - 1, s.pa, s.defender.take_damage 1, s.attacker, s.iters + 1⟩

/-- One attacker-hit iteration: `potential_damage_to_attacker -= 1;
attacker.take_damage(1)`. -/
def att_hit (s : ExchangeState) : ExchangeState :=
  ⟨s.pd, s.pa - 1, s.defender, s.attacker.take_damage 1, s.iters + 1⟩

/-- The alternating HP-exchange loop of `Battle.take_damage` (non-ranged,
non-civilian branch), with the global RNG embedded as the stream `rands` and
an explicit fuel argument: `while pd + pa > 0: if random() * (pd + pa) < pd:
hit defender, break if defeated; else hit attacker, break if defeated`. -/
def exchange_run (rands : Nat → ℚ) : Nat → ExchangeState → ExchangeState
  | 0, s => s
  | fuel+1, s =>
    if 0 < s.pd + s.pa then
      if rands s.iters * ((s.pd + s.pa : ℤ) : ℚ) < ((s.pd : ℤ) : ℚ) then
        if (def_hit s).defender.is_defeated then def_hit s
        else exchange_run rands fuel (def_hit s)
      else
        if (att_hit s).attacker.is_defeated then att_hit s
        else exchange_run rands fuel (att_hit s)
    else s

/-- A state whose combined budget is exhausted is a fixed point of the loop. -/
theorem exchange_run_of_nonpos (rands : Nat → ℚ) (s : ExchangeState)
    (h : s.pd + s.pa ≤ 0) : ∀ fuel, exchange_run rands fuel s = s := by
  intro fuel
  cases fuel with
  | zero => rfl
  | succ n => simp only [exchange_run, if_neg (not_lt.mpr h)]

/-- Combined loop invariant: starting from non-negative budgets with enough
fuel, the budgets stay non-negative, the final state satisfies the loop's
stop condition, the iteration count grows by at most the initial combined
budget, and extra fuel does not change the result (the loop terminates). -/
theorem exchange_run_master (rands : Nat → ℚ)
    (H : ∀ i, 0 ≤ rands i ∧ rands i < 1) :
    ∀ fuel s, 0 ≤ s.pd → 0 ≤ s.pa → (s.pd + s.pa).toNat ≤ fuel →
    (0 ≤ (exchange_run rands fuel s).pd ∧
      0 ≤ (exchange_run rands fuel s).pa) ∧
    ((exchange_run rands fuel s).pd + (exchange_run rands fuel s).pa ≤ 0 ∨
      (exchange_run rands fuel s).defender.is_defeated ∨
      (exchange_run rands fuel s).attacker.is_defeated) ∧
    (exchange_run rands fuel s).iters ≤ s.iters + (s.pd + s.pa).toNat ∧
    (∀ extra, exchange_run rands (fuel + extra) s = exchange_run rands fuel s) := by
  intro fuel
  induction fuel with
  | zero =>
    intro s hpd hpa hfuel
    have hz : s.pd + s.pa ≤ 0 := by omega
    refine ⟨⟨hpd, hpa⟩, Or.inl hz, by simp [exchange_run], ?_⟩
    intro extra
    rw [exchange_run_of_nonpos rands s hz]
    rfl
  | succ fuel ih =>
    intro s hpd hpa hfuel
    by_cases hpos : 0 < s.pd + s.pa
    · by_cases hcoin : rands s.iters * ((s.pd + s.pa : ℤ) : ℚ) < ((s.pd : ℤ) : ℚ)
      · -- defender-hit branch; the coin outcome forces pd > 0
        have hpdpos : 0 < s.pd := by
          have h0 : (0 : ℚ) ≤ rands s.iters * ((s.pd + s.pa : ℤ) : ℚ) := by
            have := (H s.iters).1
            have hx : (0 : ℚ) ≤ ((s.pd + s.pa : ℤ) : ℚ) := by exact_mod_cast le_of_lt hpos
            exact mul_nonneg this hx
          have : (0 : ℚ) < ((s.pd : ℤ) : ℚ) := lt_of_le_of_lt h0 hcoin
          exact_mod_cast this
        have heq : exchange_run rands (fuel + 1) s =
            if (def_hit s).defender.is_defeated then def_hit s
            else exchange_run rands fuel (def_hit s) := by
          simp only [exchange_run, if_pos hpos, if_pos hcoin]
        have hs'pd : (def_hit s).pd = s.pd - 1 := rfl
        have hs'pa : (def_hit s).pa = s.pa := rfl
        have hs'it : (def_hit s).iters = s.iters + 1 := rfl
        by_cases hdef : (def_hit s).defender.is_defeated
        · rw [heq, if_pos hdef]
          refine ⟨⟨by omega, by omega⟩, Or.inr (Or.inl hdef), by omega, ?_⟩
          intro extra
          have heq2 : exchange_run rands (fuel + 1 + extra) s = def_hit s := by
            have : fuel + 1 + extra = (fuel + extra) + 1 := by omega
            rw [this]
            simp only [exchange_run, if_pos hpos, if_pos hcoin, if_pos hdef]
          rw [heq2]
        · rw [heq, if_neg hdef]
          have ihs := ih (def_hit s) (by omega) (by omega) (by rw [hs'pd, hs'pa]; omega)
          refine ⟨ihs.1, ihs.2.1, ?_, ?_⟩
          · have := ihs.2.2.1
            rw [hs'it, hs'pd, hs'pa] at this
            omega
          · intro extra
            have : fuel + 1 + extra = (fuel + extra) + 1 := by omega
            rw [this]
            have heq3 : exchange_run rands ((fuel + extra) + 1) s =
                exchange_run rands (fuel + extra) (def_hit s) := by
              simp only [exchange_run, if_pos hpos, if_pos hcoin, if_neg hdef]
            rw [heq3, ihs.2.2.2 extra]
      · -- attacker-hit branch; the coin outcome plus rands < 1 forces pa > 0
        have hpapos : 0 < s.pa := by
          by_contra hc
          have hpa0 : s.pa = 0 := by omega
          have hpdpos : 0 < s.pd := by omega
          have hle : ((s.pd : ℤ) : ℚ) ≤ rands s.iters * ((s.pd + s.pa : ℤ) : ℚ) :=
            not_lt.mp hcoin
          rw [hpa0] at hle
          have hlt : rands s.iters * ((s.pd + 0 : ℤ) : ℚ) < 1 * ((s.pd + 0 : ℤ) : ℚ) := by
            have hx : (0 : ℚ) < ((s.pd + 0 : ℤ) : ℚ) := by
              exact_mod_cast by omega
            exact mul_lt_mul_of_pos_right (H s.iters).2 hx
          rw [one_mul] at hlt
          have : ((s.pd : ℤ) : ℚ) < ((s.pd + 0 : ℤ) : ℚ) := lt_of_le_of_lt hle hlt
          simp at this
        have heq : exchange_run rands (fuel + 1) s =
            if (att_hit s).attacker.is_defeated then att_hit s
            else exchange_run rands fuel (att_hit s) := by
          simp only [exchange_run, if_pos hpos, if_neg hcoin]
        have hs'pd : (att_hit s).pd = s.pd := rfl
        have hs'pa : (att_hit s).pa = s.pa - 1 := rfl
        have hs'it : (att_hit s).iters = s.iters + 1 := rfl
        by_cases hatt : (att_hit s).attacker.is_defeated
        · rw [heq, if_pos hatt]
          refine ⟨⟨by omega, by omega⟩, Or.inr (Or.inr hatt), by omega, ?_⟩
          intro extra
          have heq2 : exchange_run rands (fuel + 1 + extra) s = att_hit s := by
            have : fuel + 1 + extra = (fuel + extra) + 1 := by omega
            rw [this]
            simp only [exchange_run, if_pos hpos, if_neg hcoin, if_pos hatt]
          rw [heq2]
        · rw [heq, if_neg hatt]
          have ihs := ih (att_hit s) (by omega) (by omega) (by rw [hs'pd, hs'pa]; omega)
          refine ⟨ihs.1, ihs.2.1, ?_, ?_⟩
          · have := ihs.2.2.1
            rw [hs'it, hs'pd, hs'pa] at this
            omega
          · intro extra
            have : fuel + 1 + extra = (fuel + extra) + 1 := by omega
            rw [this]
            have heq3 : exchange_run rands ((fuel + extra) + 1) s =
                exchange_run rands (fuel + extra) (att_hit s) := by
              simp only [exchange_run, if_pos hpos, if_neg hcoin, if_neg hatt]
            rw [heq3, ihs.2.2.2 extra]
    · have hz : s.pd + s.pa ≤ 0 := not_lt.mp hpos
      rw [exchange_run_of_nonpos rands s hz]
      refine ⟨⟨hpd, hpa⟩, Or.inl hz, by omega, ?_⟩
      intro extra
      rw [exchange_run_of_nonpos rands s hz]

/-- C2: for every pair of non-negative integer potential damages, the
alternating HP-exchange loop of `Battle.take_damage` terminates (its result is
unchanged by any additional fuel beyond `pd + pa`), performs at most
`pd + pa` iterations, and its final state satisfies the stop condition:
the combined budget is exhausted or one of the combatants is defeated. -/
theorem c2_exchange_loop_terminates
    (pd pa : Nat) (defender attacker : Combatant) (rands : Nat → ℚ)
    (H : ∀ i, 0 ≤ rands i ∧ rands i < 1) :
    (∀ extra, exchange_run rands (pd + pa + extra)
        ⟨(pd : ℤ), (pa : ℤ), defender, attacker, 0⟩ =
      exchange_run rands (pd + pa)
        ⟨(pd : ℤ), (pa : ℤ), defender, attacker, 0⟩) ∧
    (exchange_run rands (pd + pa)
        ⟨(pd : ℤ), (pa : ℤ), defender, attacker, 0⟩).iters ≤ pd + pa ∧
    ((exchange_run rands (pd + pa)
        ⟨(pd : ℤ), (pa : ℤ), defender, attacker, 0⟩).pd +
      (exchange_run rands (pd + pa)
        ⟨(pd : ℤ), (pa : ℤ), defender, attacker, 0⟩).pa ≤ 0 ∨
      (exchange_run rands (pd + pa)
        ⟨(pd : ℤ), (pa : ℤ), defender, attacker, 0⟩).defender.is_defeated ∨
      (exchange_run rands (pd + pa)
        ⟨(pd : ℤ), (pa : ℤ), defender, attacker, 0⟩).attacker.is_defeated) := by
  have hm := exchange_run_master rands H (pd + pa)
    ⟨(pd : ℤ), (pa : ℤ), defender, attacker, 0⟩
    (Int.natCast_nonneg pd) (Int.natCast_nonneg pa)
    (by show ((pd : ℤ) + (pa : ℤ)).toNat ≤ pd + pa; omega)
  refine ⟨fun extra => hm.2.2.2 extra, ?_, hm.2.1⟩
  have h3 : (exchange_run rands (pd + pa)
      ⟨(pd : ℤ), (pa : ℤ), defender, attacker, 0⟩).iters ≤
      0 + ((pd : ℤ) + (pa : ℤ)).toNat := hm.2.2.1
  omega

/-- Witness for C2 at `pd = 2`, `pa = 1`, a unit defender at 1 HP, a unit
attacker at 10 HP, and the constant stream 0 (always hits the defender). -/
theorem c2_witness :
    (∀ i, (0:ℚ) ≤ (fun _ : Nat => (0:ℚ)) i ∧ (fun _ : Nat => (0:ℚ)) i < 1) ∧
    (exchange_run (fun _ => 0) (2 + 1)
        ⟨(2 : ℤ), (1 : ℤ),
          .unit { health := 1, baseStrength := 8, rangedStrength := 0,
                  isRangedUnit := false, isAirUnitFlag := false,
                  isCivilianUnit := false, isEmbarked := false,
                  embarkDefense := 5, noDamagePenaltyWounded := false,
                  civIsBarbarian := false, cannotCaptureCities := false,
                  uncapturable := false, matchesFilters := [],
                  gainFromDefeatingUniques := [],
                  gainFromEncampmentUniques := [],
                  killUnitCaptureFilters := [] },
          .unit { health := 10, baseStrength := 8, rangedStrength := 0,
                  isRangedUnit := false, isAirUnitFlag := false,
                  isCivilianUnit := false, isEmbarked := false,
                  embarkDefense := 5, noDamagePenaltyWounded := false,
                  civIsBarbarian := false, cannotCaptureCities := false,
                  uncapturable := false, matchesFilters := [],
                  gainFromDefeatingUniques := [],
                  gainFromEncampmentUniques := [],
                  killUnitCaptureFilters := [] }, 0⟩).iters ≤ 2 + 1 :=
  ⟨fun i => ⟨le_refl 0, by norm_num⟩,
    (c2_exchange_loop_terminates 2 1 _ _ (fun _ => 0)
      (fun i => ⟨le_refl 0, by norm_num⟩)).2.1⟩

/-- One step of the loop in `BattleUnitCapture.unit_gain_from_defeating_unit`:
`if defender.unit.matches_filter(unique.params[0]):
add_gold(unique.params[1]); unit_captured = True`.  The accumulator carries
(capture flag, gold granted so far). -/
def gain_step (defender : UnitData) (acc : Bool × Int) (u : String × Int) :
    Bool × Int :=
  if u.1 ∈ defender.matchesFilters then (true, acc.2 + u.2) else acc

/-- `BattleUnitCapture.unit_gain_from_defeating_unit` (battle_unit_capture.py,
lines 73-90), returning (captured flag, gold added to the attacker's civ):
returns False immediately for non-melee attackers, else iterates the
attacker's `GainFromDefeatingUnit` uniques, granting gold for each filter
match. -/
def unit_gain_from_defeating_unit (attacker defender : UnitData) : Bool × Int :=
  if attacker.isRangedUnit then (false, 0)
  else attacker.gainFromDefeatingUniques.foldl (gain_step defender) (false, 0)

/-- `BattleUnitCapture.unit_captured_from_encampment` (battle_unit_capture.py,
lines 92-108): requires a barbarian defender on a barbarian-encampment tile;
each civ `GainFromEncampment` unique grants its gold and marks capture. -/
def unit_captured_from_encampment (attacker defender : UnitData)
    (attacked_tile_is_encampment : Bool) : Bool × Int :=
  if ¬defender.civIsBarbarian then (false, 0)
  else if ¬attacked_tile_is_encampment then (false, 0)
  else attacker.gainFromEncampmentUniques.foldl
    (fun (acc : Bool × Int) g => (true, acc.2 + g)) (false, 0)

/-- `BattleUnitCapture.unit_captured_prize_ships_unique` (battle_unit_capture.py,
lines 55-71): no `KillUnitCapture` unique matching the defender means no
capture; otherwise `capture_chance = min(0.8, 0.1 + att/def * 0.4)` and the
roll is `random.Random(turns * defender_tile_position_hash).random() <=
capture_chance` — a fresh seeded generator, embedded as `seedFn`. -/
def unit_captured_prize_ships_unique (seedFn : Int → ℚ)
    (turns defTileHash : Int) (attacker defender : UnitData) : Bool :=
  if ¬attacker.killUnitCaptureFilters.any
      (fun f => decide (f ∈ defender.matchesFilters)) then false
  else
    let capture_chance := min (4/5 : ℚ)
      (1/10 + (unit_attacking_strength attacker : ℚ) /
        (unit_defending_strength defender false : ℚ) * (2/5))
    decide (seedFn (turns * defTileHash) ≤ capture_chance)

/-- `BattleUnitCapture.try_capture_military_unit` (battle_unit_capture.py,
lines 17-53), returning (capture reported, attacker gold delta).  All three
triggers are evaluated (their gold side effects applied) before the results
are OR-ed; on success the result is that of `spawn_captured_unit`, whose
`place_unit_near_tile` outcome is the parameter `place_unit_succeeds`. -/
def try_capture_military_unit (seedFn : Int → ℚ) (turns defTileHash : Int)
    (attacker defender : UnitData) (attacked_tile_is_encampment : Bool)
    (place_unit_succeeds : Bool) : Bool × Int :=
  if defender.uncapturable then (false, 0)
  else if ¬(defender.health ≤ 0) ∨ defender.isCivilianUnit then (false, 0)
  else
    let c1 := unit_captured_prize_ships_unique seedFn turns defTileHash
      attacker defender
    let r2 := unit_captured_from_encampment attacker defender
      attacked_tile_is_encampment
    let r3 := unit_gain_from_defeating_unit attacker defender
    let was_unit_captured := c1 || r2.1 || r3.1
    if ¬was_unit_captured then (false, r2.2 + r3.2)
    else (place_unit_succeeds, r2.2 + r3.2)

/-- Unfolding of the gain-from-defeating fold: the flag records whether any
unique matched, and the gold is the sum of the matched uniques' amounts. -/
theorem gain_foldl_spec (defender : UnitData) (L : List (String × Int)) :
    ∀ acc : Bool × Int,
    L.foldl (gain_step defender) acc =
      (acc.1 || L.any (fun u => decide (u.1 ∈ defender.matchesFilters)),
       acc.2 + ((L.filter (fun u => decide (u.1 ∈ defender.matchesFilters))).map
         Prod.snd).sum) := by
  induction L with
  | nil => intro acc; simp
  | cons u L ih =>
    intro acc
    by_cases hu : u.1 ∈ defender.matchesFilters
    · simp only [List.foldl_cons, ih, gain_step, if_pos hu, List.any_cons,
        List.filter_cons, decide_eq_true hu, if_true, List.map_cons,
        List.sum_cons, Prod.mk.injEq]
      exact ⟨by simp, by ring⟩
    · simp only [List.foldl_cons, ih, gain_step, if_neg hu, List.any_cons,
        List.filter_cons, decide_eq_false hu, List.map_cons, List.sum_cons]
      simp [hu]

/-- C5 (amended): under the military-capture preconditions, if the attacker
is additionally a melee unit and has a `GainFromDefeatingUnit` unique whose
filter matches the defeated defender, the gain-from-defeating-unit trigger
reports success and grants exactly the summed gold of all matching uniques. -/
theorem c5_gain_from_defeating_grants_gold
    (attacker defender : UnitData)
    (hmelee : attacker.isRangedUnit = false)
    (hmatch : attacker.gainFromDefeatingUniques.any
      (fun u => decide (u.1 ∈ defender.matchesFilters)) = true) :
    (unit_gain_from_defeating_unit attacker defender).1 = true ∧
    (unit_gain_from_defeating_unit attacker defender).2 =
      ((attacker.gainFromDefeatingUniques.filter
        (fun u => decide (u.1 ∈ defender.matchesFilters))).map Prod.snd).sum := by
  unfold unit_gain_from_defeating_unit
  rw [if_neg (by simp [hmelee])]
  rw [gain_foldl_spec]
  simp [hmatch]

/-- Witness for C5 (amended): a concrete melee attacker with a matching
`GainFromDefeatingUnit` unique succeeds and receives 50 gold. -/
theorem c5_witness :
    (unit_gain_from_defeating_unit
      { health := 100, baseStrength := 12, rangedStrength := 0,
        isRangedUnit := false, isAirUnitFlag := false,
        isCivilianUnit := false, isEmbarked := false, embarkDefense := 5,
        noDamagePenaltyWounded := false, civIsBarbarian := false,
        cannotCaptureCities := false, uncapturable := false,
        matchesFilters := [],
        gainFromDefeatingUniques := [("Barbarian", 50)],
        gainFromEncampmentUniques := [], killUnitCaptureFilters := [] }
      { health := 0, baseStrength := 8, rangedStrength := 0,
        isRangedUnit := false, isAirUnitFlag := false,
        isCivilianUnit := false, isEmbarked := false, embarkDefense := 5,
        noDamagePenaltyWounded := false, civIsBarbarian := true,
        cannotCaptureCities := false, uncapturable := false,
        matchesFilters := ["Barbarian", "Military"],
        gainFromDefeatingUniques := [], gainFromEncampmentUniques := [],
        killUnitCaptureFilters := [] }).1 = true ∧
    (unit_gain_from_defeating_unit
      { health := 100, baseStrength := 12, rangedStrength := 0,
        isRangedUnit := false, isAirUnitFlag := false,
        isCivilianUnit := false, isEmbarked := false, embarkDefense := 5,
        noDamagePenaltyWounded := false, civIsBarbarian := false,
        cannotCaptureCities := false, uncapturable := false,
        matchesFilters := [],
        gainFromDefeatingUniques := [("Barbarian", 50)],
        gainFromEncampmentUniques := [], killUnitCaptureFilters := [] }
      { health := 0, baseStrength := 8, rangedStrength := 0,
        isRangedUnit := false, isAirUnitFlag := false,
        isCivilianUnit := false, isEmbarked := false, embarkDefense := 5,
        noDamagePenaltyWounded := false, civIsBarbarian := true,
        cannotCaptureCities := false, uncapturable := false,
        matchesFilters := ["Barbarian", "Military"],
        gainFromDefeatingUniques := [], gainFromEncampmentUniques := [],
        killUnitCaptureFilters := [] }).2 =
      (([(("Barbarian" : String), (50 : Int))].filter
        (fun u => decide (u.1 ∈ ["Barbarian", "Military"]))).map Prod.snd).sum :=
  c5_gain_from_defeating_grants_gold _ _ rfl (by decide)

/-- A concrete ranged attacker carrying a matching `GainFromDefeatingUnit`
unique, used to refute C5 as stated. -/
def c5RangedAttacker : UnitData :=
  { health := 100, baseStrength := 10, rangedStrength := 14,
    isRangedUnit := true, isAirUnitFlag := false, isCivilianUnit := false,
    isEmbarked := false, embarkDefense := 5, noDamagePenaltyWounded := false,
    civIsBarbarian := false, cannotCaptureCities := false,
    uncapturable := false, matchesFilters := [],
    gainFromDefeatingUniques := [("Barbarian", 50)],
    gainFromEncampmentUniques := [], killUnitCaptureFilters := [] }

/-- A concrete defeated, capturable, non-civilian defender matching the
`"Barbarian"` filter, used to refute C5 as stated. -/
def c5DefeatedDefender : UnitData :=
  { health := 0, baseStrength := 8, rangedStrength := 0,
    isRangedUnit := false, isAirUnitFlag := false, isCivilianUnit := false,
    isEmbarked := false, embarkDefense := 5, noDamagePenaltyWounded := false,
    civIsBarbarian := true, cannotCaptureCities := false,
    uncapturable := false, matchesFilters := ["Barbarian", "Military"],
    gainFromDefeatingUniques := [], gainFromEncampmentUniques := [],
    killUnitCaptureFilters := [] }

/-- C5 counterexample: a ranged attacker satisfying every precondition of the
claim (defender defeated, non-civilian, capturable, filter matched) whose
gain-from-defeating-unit trigger nevertheless reports failure and grants no
gold, because the code returns False for every non-melee attacker
(battle_unit_capture.py, line 78). -/
theorem c5_counterexample :
    (c5DefeatedDefender.health ≤ 0 ∧
     c5DefeatedDefender.isCivilianUnit = false ∧
     c5DefeatedDefender.uncapturable = false ∧
     ("Barbarian", (50 : Int)) ∈ c5RangedAttacker.gainFromDefeatingUniques ∧
     "Barbarian" ∈ c5DefeatedDefender.matchesFilters) ∧
    unit_gain_from_defeating_unit c5RangedAttacker c5DefeatedDefender =
      (false, 0) := by
  constructor
  · exact ⟨by decide, rfl, rfl, by decide, by decide⟩
  · rfl

/-- C9: the prize-ships capture roll and the damage randomness factor are
deterministic functions of the `(turns, tile-position-hash)` seed: with the
global RNG embedded as a stream cursor, two evaluations under different
cursor states return identical results and leave the cursor untouched. -/
def randomness_factor_roll (seedFn : Int → ℚ) (turns posHash : Int)
    (cursor : Nat) : ℚ × Nat :=
  (seedFn (turns * posHash), cursor)

/-- The prize-ships roll of `unit_captured_prize_ships_unique` paired with
the untouched global-RNG cursor: `random.Random(seed)` is a fresh generator
and does not read or advance the global stream. -/
def prize_ships_roll (seedFn : Int → ℚ) (turns defTileHash : Int)
    (attacker defender : UnitData) (cursor : Nat) : Bool × Nat :=
  (unit_captured_prize_ships_unique seedFn turns defTileHash attacker defender,
   cursor)

/-- C9: for every fixed `(turns, position-hash)` pair, two evaluations of the
damage randomness factor and of the prize-ships capture roll, at arbitrary
(and arbitrarily different) global-RNG cursor states, produce identical
values and do not consume the global RNG stream. -/
theorem c9_seeded_rolls_deterministic
    (seedFn : Int → ℚ) (turns posHash : Int) (attacker defender : UnitData)
    (cursor1 cursor2 : Nat) :
    (randomness_factor_roll seedFn turns posHash cursor1).1 =
      (randomness_factor_roll seedFn turns posHash cursor2).1 ∧
    (randomness_factor_roll seedFn turns posHash cursor1).2 = cursor1 ∧
    (prize_ships_roll seedFn turns posHash attacker defender cursor1).1 =
      (prize_ships_roll seedFn turns posHash attacker defender cursor2).1 ∧
    (prize_ships_roll seedFn turns posHash attacker defender cursor1).2 =
      cursor1 :=
  ⟨rfl, rfl, rfl, rfl⟩

/-- C10: capture is not atomic.  Under the military-capture preconditions,
when at least one of the three capture triggers (prize-ships, encampment,
gain-from-defeating) fires but `place_unit_near_tile` fails,
`try_capture_military_unit` reports no capture while the gold granted by the
triggers remains applied to the attacker's civilization. -/
theorem c10_capture_not_atomic
    (seedFn : Int → ℚ) (turns defTileHash : Int)
    (attacker defender : UnitData) (attacked_tile_is_encampment : Bool)
    (h1 : defender.uncapturable = false)
    (h2 : defender.health ≤ 0)
    (h3 : defender.isCivilianUnit = false)
    (hfired :
      unit_captured_prize_ships_unique seedFn turns defTileHash attacker
        defender = true ∨
      (unit_captured_from_encampment attacker defender
        attacked_tile_is_encampment).1 = true ∨
      (unit_gain_from_defeating_unit attacker defender).1 = true) :
    (try_capture_military_unit seedFn turns defTileHash attacker defender
      attacked_tile_is_encampment false).1 = false ∧
    (try_capture_military_unit seedFn turns defTileHash attacker defender
      attacked_tile_is_encampment false).2 =
      (unit_captured_from_encampment attacker defender
        attacked_tile_is_encampment).2 +
      (unit_gain_from_defeating_unit attacker defender).2 := by
  unfold try_capture_military_unit
  rw [if_neg (by simp [h1])]
  rw [if_neg (by simp [h2, h3])]
  have hor : (unit_captured_prize_ships_unique seedFn turns defTileHash
      attacker defender ||
      (unit_captured_from_encampment attacker defender
        attacked_tile_is_encampment).1 ||
      (unit_gain_from_defeating_unit attacker defender).1) = true := by
    rcases hfired with h | h | h <;> simp [h]
  simp only [hor]
  simp

/-- Witness for C10: a concrete melee attacker whose trigger fires for 50
gold, a concrete defeated defender, and a failed placement: try-capture
reports False and the 50 gold stays granted. -/
theorem c10_witness :
    ((try_capture_military_unit (fun _ => 1/2) 3 7
        { health := 100, baseStrength := 12, rangedStrength := 0,
          isRangedUnit := false, isAirUnitFlag := false,
          isCivilianUnit := false, isEmbarked := false, embarkDefense := 5,
          noDamagePenaltyWounded := false, civIsBarbarian := false,
          cannotCaptureCities := false, uncapturable := false,
          matchesFilters := [],
          gainFromDefeatingUniques := [("Barbarian", 50)],
          gainFromEncampmentUniques := [], killUnitCaptureFilters := [] }
        c5DefeatedDefender false false).1 = false ∧
      (try_capture_military_unit (fun _ => 1/2) 3 7
        { health := 100, baseStrength := 12, rangedStrength := 0,
          isRangedUnit := false, isAirUnitFlag := false,
          isCivilianUnit := false, isEmbarked := false, embarkDefense := 5,
          noDamagePenaltyWounded := false, civIsBarbarian := false,
          cannotCaptureCities := false, uncapturable := false,
          matchesFilters := [],
          gainFromDefeatingUniques := [("Barbarian", 50)],
          gainFromEncampmentUniques := [], killUnitCaptureFilters := [] }
        c5DefeatedDefender false false).2 =
        (unit_captured_from_encampment
          { health := 100, baseStrength := 12, rangedStrength := 0,
            isRangedUnit := false, isAirUnitFlag := false,
            isCivilianUnit := false, isEmbarked := false, embarkDefense := 5,
            noDamagePenaltyWounded := false, civIsBarbarian := false,
            cannotCaptureCities := false, uncapturable := false,
            matchesFilters := [],
            gainFromDefeatingUniques := [("Barbarian", 50)],
            gainFromEncampmentUniques := [], killUnitCaptureFilters := [] }
          c5DefeatedDefender false).2 +
        (unit_gain_from_defeating_unit
          { health := 100, baseStrength := 12, rangedStrength := 0,
            isRangedUnit := false, isAirUnitFlag := false,
            isCivilianUnit := false, isEmbarked := false, embarkDefense := 5,
            noDamagePenaltyWounded := false, civIsBarbarian := false,
            cannotCaptureCities := false, uncapturable := false,
            matchesFilters := [],
            gainFromDefeatingUniques := [("Barbarian", 50)],
            gainFromEncampmentUniques := [], killUnitCaptureFilters := [] }
          c5DefeatedDefender).2) ∧
    (unit_gain_from_defeating_unit
      { health := 100, baseStrength := 12, rangedStrength := 0,
        isRangedUnit := false, isAirUnitFlag := false,
        isCivilianUnit := false, isEmbarked := false, embarkDefense := 5,
        noDamagePenaltyWounded := false, civIsBarbarian := false,
        cannotCaptureCities := false, uncapturable := false,
        matchesFilters := [],
        gainFromDefeatingUniques := [("Barbarian", 50)],
        gainFromEncampmentUniques := [], killUnitCaptureFilters := [] }
      c5DefeatedDefender).2 = 50 :=
  ⟨c10_capture_not_atomic (fun _ => 1/2) 3 7 _ c5DefeatedDefender false
    rfl (by decide) rfl (Or.inr (Or.inr rfl)), by decide⟩

/-- `Battle.post_battle_add_xp` (battle.py, lines 662-676): the base
(attacker XP, defender XP) pair passed to `add_xp`, or `none` when no XP is
awarded.  (`add_xp` itself then applies flat/percentage XP uniques and the
barbarian XP cap; the table concerns these base amounts.) -/
def post_battle_add_xp_amounts (attacker defender : Combatant) :
    Option (Int × Int) :=
  if attacker.is_air_unit then some (4, 2)
  else if attacker.is_ranged then
    if defender.is_city then some (3, 2) else some (2, 2)
  else if ¬defender.is_civilian then some (5, 4)
  else none

/-- The XP-awarding fragment of `Battle.attack` (battle.py, lines 148-149 and
245-246): `is_already_defeated_city` is computed before damage is applied,
and XP is awarded afterwards only if it was false. -/
def attack_xp (attacker defender : Combatant) (damage : Int) :
    Option (Int × Int) :=
  let is_already_defeated_city := defender.is_city ∧ defender.is_defeated
  let defender_after := defender.take_damage damage
  if is_already_defeated_city then none
  else post_battle_add_xp_amounts attacker defender_after

/-- Damage does not change a combatant's city/civilian/ranged/air flags. -/
theorem take_damage_preserves_flags (c : Combatant) (d : Int) :
    (c.take_damage d).is_city = c.is_city ∧
    (c.take_damage d).is_civilian = c.is_civilian ∧
    (c.take_damage d).is_ranged = c.is_ranged ∧
    (c.take_damage d).is_air_unit = c.is_air_unit := by
  cases c <;> simp [Combatant.take_damage, Combatant.is_city,
    Combatant.is_civilian, Combatant.is_ranged, Combatant.is_air_unit]

/-- C6: in every `Battle.attack`, base experience follows the table read
first-match-first (air attacker → (4,2); ranged attacker vs city → (3,2);
ranged attacker vs unit → (2,2); any other attacker vs non-civilian
defender → (5,4); otherwise — civilian defender — none), judged on the
pre-attack defender's flags; and no XP at all is awarded when the defender
is a city already at 1 HP before the attack. -/
theorem c6_xp_table (attacker defender : Combatant) (damage : Int)
    (hnotold : ¬(defender.is_city = true ∧ defender.is_defeated = true)) :
    (attacker.is_air_unit = true →
      attack_xp attacker defender damage = some (4, 2)) ∧
    (attacker.is_air_unit = false → attacker.is_ranged = true →
      defender.is_city = true →
      attack_xp attacker defender damage = some (3, 2)) ∧
    (attacker.is_air_unit = false → attacker.is_ranged = true →
      defender.is_city = false →
      attack_xp attacker defender damage = some (2, 2)) ∧
    (attacker.is_air_unit = false → attacker.is_ranged = false →
      defender.is_civilian = false →
      attack_xp attacker defender damage = some (5, 4)) ∧
    (attacker.is_air_unit = false → attacker.is_ranged = false →
      defender.is_civilian = true →
      attack_xp attacker defender damage = none) ∧
    (∀ att def2 dmg, Combatant.is_city def2 = true →
      Combatant.is_defeated def2 = true →
      attack_xp att def2 dmg = none) := by
  have hflags := take_damage_preserves_flags defender damage
  refine ⟨?_, ?_, ?_, ?_, ?_, ?_⟩
  · intro hair
    unfold attack_xp
    rw [if_neg hnotold]
    unfold post_battle_add_xp_amounts
    rw [if_pos hair]
  · intro hnair hranged hcity
    unfold attack_xp
    rw [if_neg hnotold]
    unfold post_battle_add_xp_amounts
    rw [if_neg (by simp [hnair]), if_pos hranged,
        if_pos (by rw [hflags.1]; exact hcity)]
  · intro hnair hranged hcity
    unfold attack_xp
    rw [if_neg hnotold]
    unfold post_battle_add_xp_amounts
    rw [if_neg (by simp [hnair]), if_pos hranged,
        if_neg (by simp [hflags.1, hcity])]
  · intro hnair hranged hciv
    unfold attack_xp
    rw [if_neg hnotold]
    unfold post_battle_add_xp_amounts
    rw [if_neg (by simp [hnair]), if_neg (by simp [hranged]),
        if_pos (by simp [hflags.2.1, hciv])]
  · intro hnair hranged hciv
    unfold attack_xp
    rw [if_neg hnotold]
    unfold post_battle_add_xp_amounts
    rw [if_neg (by simp [hnair]), if_neg (by simp [hranged]),
        if_neg (by simp [hflags.2.1, hciv])]
  · intro att def2 dmg hc hd
    unfold attack_xp
    rw [if_pos ⟨hc, hd⟩]

/-- Witness for C6: a melee unit attacking a healthy enemy unit earns the
(5,4) base XP pair. -/
theorem c6_witness :
    attack_xp
      (.unit { health := 100, baseStrength := 12, rangedStrength := 0,
               isRangedUnit := false, isAirUnitFlag := false,
               isCivilianUnit := false, isEmbarked := false,
               embarkDefense := 5, noDamagePenaltyWounded := false,
               civIsBarbarian := false, cannotCaptureCities := false,
               uncapturable := false, matchesFilters := [],
               gainFromDefeatingUniques := [],
               gainFromEncampmentUniques := [],
               killUnitCaptureFilters := [] })
      (.unit { health := 80, baseStrength := 8, rangedStrength := 0,
               isRangedUnit := false, isAirUnitFlag := false,
               isCivilianUnit := false, isEmbarked := false,
               embarkDefense := 5, noDamagePenaltyWounded := false,
               civIsBarbarian := false, cannotCaptureCities := false,
               uncapturable := false, matchesFilters := [],
               gainFromDefeatingUniques := [],
               gainFromEncampmentUniques := [],
               killUnitCaptureFilters := [] })
      30 = some (5, 4) :=
  (c6_xp_table _ _ 30 (by simp [Combatant.is_city])).2.2.2.1 rfl rfl rfl

/-- Outcome record of the city-capture step at the end of `Battle.attack`
(battle.py, lines 172-192): the defending city's final health, the change to
the defending civ's gold, whether the attacking unit was destroyed, and
whether the city was actually conquered (`conquer_city` called). -/
structure CityCaptureOutcome where
  cityHealth : Int
  defenderGoldDelta : Int
  attackerDestroyed : Bool
  cityConquered : Bool
deriving DecidableEq

/-- The city-capture step of `Battle.attack` (battle.py, lines 172-192):
requires the city defeated, the attacker a melee map unit without the
`CannotCaptureCities` unique; barbarian attackers raid (heal the city by 1
via `take_damage(-1)`, steal `min(200, gold)`, self-destruct) instead of
conquering. -/
def city_capture_step (attacker : UnitData) (city : CityData) :
    CityCaptureOutcome :=
  if city.health = 1 ∧ ¬attacker.isRangedUnit ∧ ¬attacker.cannotCaptureCities
  then
    if attacker.civIsBarbarian then
      { cityHealth := city_take_damage city.health (-1),
        defenderGoldDelta := -(min 200 city.civGold),
        attackerDestroyed := true,
        cityConquered := false }
    else
      { cityHealth := city.health, defenderGoldDelta := 0,
        attackerDestroyed := false, cityConquered := true }
  else
    { cityHealth := city.health, defenderGoldDelta := 0,
      attackerDestroyed := false, cityConquered := false }

/-- C7 (amended): whenever a barbarian melee unit without the
`CannotCaptureCities` unique defeats a city, the city is not conquered: its
health is set back to 2, exactly `min(200, defender gold)` gold is removed
from the defending civ, and the attacking unit is destroyed. -/
theorem c7_barbarian_city_raid (attacker : UnitData) (city : CityData)
    (hdef : city.health = 1)
    (hmelee : attacker.isRangedUnit = false)
    (hcap : attacker.cannotCaptureCities = false)
    (hbarb : attacker.civIsBarbarian = true) :
    city_capture_step attacker city =
      { cityHealth := 2,
        defenderGoldDelta := -(min 200 city.civGold),
        attackerDestroyed := true,
        cityConquered := false } := by
  unfold city_capture_step
  rw [if_pos ⟨hdef, by simp [hmelee], by simp [hcap]⟩, if_pos hbarb]
  have h2 : city_take_damage city.health (-1) = 2 := by
    rw [hdef]
    rfl
  rw [h2]

/-- Witness for C7 (amended): a concrete barbarian warrior raiding a
defeated city holding 500 gold yields health 2, −200 gold, attacker
destroyed, no conquest. -/
theorem c7_witness :
    city_capture_step
      { health := 100, baseStrength := 8, rangedStrength := 0,
        isRangedUnit := false, isAirUnitFlag := false,
        isCivilianUnit := false, isEmbarked := false, embarkDefense := 5,
        noDamagePenaltyWounded := false, civIsBarbarian := true,
        cannotCaptureCities := false, uncapturable := false,
        matchesFilters := [], gainFromDefeatingUniques := [],
        gainFromEncampmentUniques := [], killUnitCaptureFilters := [] }
      { health := 1, strengthAttack := 10, strengthDefend := 12,
        civGold := 500, civIsBarbarian := false } =
      { cityHealth := 2, defenderGoldDelta := -(min 200 500),
        attackerDestroyed := true, cityConquered := false } :=
  c7_barbarian_city_raid _ _ rfl rfl rfl rfl

/-- A concrete barbarian melee unit carrying the `CannotCaptureCities`
unique, used to refute C7 as stated. -/
def c7ImmuneBarbarian : UnitData :=
  { health := 100, baseStrength := 8, rangedStrength := 0,
    isRangedUnit := false, isAirUnitFlag := false, isCivilianUnit := false,
    isEmbarked := false, embarkDefense := 5, noDamagePenaltyWounded := false,
    civIsBarbarian := true, cannotCaptureCities := true,
    uncapturable := false, matchesFilters := [],
    gainFromDefeatingUniques := [], gainFromEncampmentUniques := [],
    killUnitCaptureFilters := [] }

/-- C7 counterexample: a barbarian melee unit that defeats a city but has the
`CannotCaptureCities` unique triggers no raid at all — the city stays at
1 HP, no gold is stolen and the attacker survives — contradicting the claim,
which omits the `CannotCaptureCities` precondition of battle.py line 176. -/
theorem c7_counterexample :
    (c7ImmuneBarbarian.civIsBarbarian = true ∧
     c7ImmuneBarbarian.isRangedUnit = false) ∧
    city_capture_step c7ImmuneBarbarian
      { health := 1, strengthAttack := 10, strengthDefend := 12,
        civGold := 500, civIsBarbarian := false } =
      { cityHealth := 1, defenderGoldDelta := 0,
        attackerDestroyed := false, cityConquered := false } :=
  ⟨⟨rfl, rfl⟩, by decide⟩

/-- A tile inside a nuke's blast radius, as read by
`Nuke._declare_war_on_hit_civs`: its id, owning civ (if any) and the civs of
the units standing on it. -/
structure NukeTile where
  id : Nat
  owner : Option Nat
  unitCivs : List Nat

/-- The war-declaration precondition of `try_declare_war` inside
`Nuke._declare_war_on_hit_civs` (nuke.py, lines 178-184): the suffering civ
differs from the attacker, knows the attacker, and is not already at war. -/
def try_declare_war_cond (attackingCiv : Nat) (knows atWar : Nat → Bool)
    (civSuffered : Nat) : Bool :=
  civSuffered ≠ attackingCiv && knows civSuffered && !atWar civSuffered

/-- `Nuke._declare_war_on_hit_civs` (nuke.py, lines 169-201): returns
(civs whose territory was hit, civs that got war declared on them).  Tile
owners are scanned first, then the civs of all potentially hit units; each
qualifying civ is declared war on once. -/
def declare_war_on_hit_civs (attackingCiv : Nat) (hitTiles : List NukeTile)
    (knows atWar : Nat → Bool) : List Nat × List Nat :=
  let hit_civs_territory := (hitTiles.filterMap (fun t => t.owner)).dedup
  let territory_wars := hit_civs_territory.filter
    (try_declare_war_cond attackingCiv knows atWar)
  let unit_civs := ((hitTiles.flatMap (fun t => t.unitCivs)).filter
    (fun c => c ≠ attackingCiv)).dedup
  let unit_wars := unit_civs.filter (fun c =>
    try_declare_war_cond attackingCiv knows atWar c && !territory_wars.contains c)
  (hit_civs_territory, territory_wars ++ unit_wars)

/-- Observable outcome of one `Nuke.NUKE` call. -/
structure NukeOutcome where
  warDeclaredCivs : List Nat
  hitCivsTerritory : List Nat
  explodedTiles : List Nat
  attackCounterDelta : Nat
  attackerSelfDestructed : Bool
deriving DecidableEq

/-- `Nuke.NUKE` (nuke.py, lines 58-101).  `attackerDefeated` is whether the
firing unit was destroyed by interception during the war-declaration phase
(the interception itself lives in air_interception.py and is abstracted to
this flag).  A unit without a `NuclearWeapon` unique returns immediately;
after declaring war, a defeated attacker skips detonation entirely: no tile
receives `_do_nuke_explosion_for_tile` and the attack counter stays.  The
self-destruct destroy (modelled from the spec: destroyed units are removed,
hence defeated) suppresses the final attack-counter increment. -/
def NUKE (attackingCiv : Nat) (nuke_strength : Option Int)
    (hitTiles : List NukeTile) (knows atWar : Nat → Bool)
    (attackerDefeated : Bool) (self_destructs : Bool) : NukeOutcome :=
  match nuke_strength with
  | none =>
    { warDeclaredCivs := [], hitCivsTerritory := [], explodedTiles := [],
      attackCounterDelta := 0, attackerSelfDestructed := false }
  | some _ =>
    let dw := declare_war_on_hit_civs attackingCiv hitTiles knows atWar
    if attackerDefeated then
      { warDeclaredCivs := dw.2, hitCivsTerritory := dw.1,
        explodedTiles := [], attackCounterDelta := 0,
        attackerSelfDestructed := false }
    else
      { warDeclaredCivs := dw.2, hitCivsTerritory := dw.1,
        explodedTiles := hitTiles.map (fun t => t.id),
        attackCounterDelta := if self_destructs then 0 else 1,
        attackerSelfDestructed := self_destructs }

/-- C8: in every `Nuke.NUKE` call whose firing unit is defeated (intercepted)
during the war-declaration phase, the forced war declarations remain in
effect exactly as computed, but detonation is skipped: no tile in the blast
radius is processed by the explosion (hence no city damage, unit damage,
pillage or fallout), and the attacker's attack counter is not incremented. -/
theorem c8_intercepted_nuke_skips_detonation
    (attackingCiv : Nat) (s : Int) (hitTiles : List NukeTile)
    (knows atWar : Nat → Bool) (attackerDefeated self_destructs : Bool)
    (hdef : attackerDefeated = true) :
    NUKE attackingCiv (some s) hitTiles knows atWar attackerDefeated
      self_destructs =
      { warDeclaredCivs :=
          (declare_war_on_hit_civs attackingCiv hitTiles knows atWar).2,
        hitCivsTerritory :=
          (declare_war_on_hit_civs attackingCiv hitTiles knows atWar).1,
        explodedTiles := [], attackCounterDelta := 0,
        attackerSelfDestructed := false } := by
  subst hdef
  rfl

/-- Witness for C8: a concrete two-tile strike whose missile is intercepted
still leaves civ 1 at war but detonates nowhere. -/
theorem c8_witness :
    NUKE 0 (some 1)
      [⟨10, some 1, [1]⟩, ⟨11, none, [0, 2]⟩]
      (fun c => c = 1 || c = 2) (fun _ => false) true true =
      { warDeclaredCivs :=
          (declare_war_on_hit_civs 0
            [⟨10, some 1, [1]⟩, ⟨11, none, [0, 2]⟩]
            (fun c => c = 1 || c = 2) (fun _ => false)).2,
        hitCivsTerritory :=
          (declare_war_on_hit_civs 0
            [⟨10, some 1, [1]⟩, ⟨11, none, [0, 2]⟩]
            (fun c => c = 1 || c = 2) (fun _ => false)).1,
        explodedTiles := [], attackCounterDelta := 0,
        attackerSelfDestructed := false } :=
  c8_intercepted_nuke_skips_detonation 0 1
    [⟨10, some 1, [1]⟩, ⟨11, none, [0, 2]⟩]
    (fun c => c = 1 || c = 2) (fun _ => false) true true rfl

end UncivBattle
